import Mathlib

/-!
Verification development for the web-search dispatch library.

The embedding below is a shallow model of the TypeScript source file
src/index.ts of the repository: the engine dispatcher web_search, the
direct-HTTP transports braveSearch and braveImageSearch, the LLM-backed
adapter llmWebSearch, and the capability registry getSearchTools.

Modelling conventions:
- JavaScript dynamic values passed through the public signature are
  modelled by the inductive type JSVal; typeof and the template-literal
  and JSON.stringify renderings are modelled by typeofVal, toStringVal
  and jsonStringifyVal.
- Environment variables are Option String; JavaScript truthiness of a
  possibly-missing string is envTruthy (an empty string is falsy).
- External effects are oracles carried in a World record: the HTTP
  responses the axios client would deliver for the two Brave endpoints
  and the event stream the external agent runtime would deliver.
  An HTTP call either throws with a message or returns a response body.
- The returned Outcome carries the produced string as Except String
  String, where Except.error models a JavaScript exception escaping the
  function to its caller, plus ghost instrumentation: a branch tag
  recording which return site produced the outcome, and counters for how
  many HTTP requests and agent invocations were performed. The ghost
  fields do not influence the result string; they only make the control
  flow observable to the theorems.
- JSON.stringify on the normalized result records is modelled by
  stringifyWebObj and stringifyImageObj: fields are rendered in object
  insertion order, fields whose value is undefined are omitted, and
  string values are quoted with quote and backslash escaping.
-/

namespace JES

/-- Model of a JavaScript dynamic value as far as the dispatcher can
observe one through its public signature. -/
inductive JSVal where
  | str (s : String)
  | num (n : Int)
  | boolean (b : Bool)
  | null
  | undefined
deriving DecidableEq, Repr

/-- Model of the JavaScript typeof operator on JSVal. -/
def typeofVal : JSVal → String
  | .str _ => "string"
  | .num _ => "number"
  | .boolean _ => "boolean"
  | .null => "object"
  | .undefined => "undefined"

/-- Rendering of a JSVal inside a template literal, as String(v). -/
def toStringVal : JSVal → String
  | .str s => s
  | .num n => toString n
  | .boolean b => cond b "true" "false"
  | .null => "null"
  | .undefined => "undefined"

/-- Escape of one character as JSON.stringify escapes string content. -/
def jsonEscapeChar (c : Char) : String :=
  if c = '\"' then "\\\"" else if c = '\\' then "\\\\" else String.singleton c

/-- Escape of a string body as JSON.stringify escapes string content. -/
def jsonEscape (s : String) : String :=
  String.join (s.data.map jsonEscapeChar)

/-- JSON string literal rendering. -/
def jsonStr (s : String) : String :=
  "\"" ++ jsonEscape s ++ "\""

/-- Rendering of JSON.stringify applied to a JSVal, as it appears inside
the template literal of the bad-query error message. -/
def jsonStringifyVal : JSVal → String
  | .str s => jsonStr s
  | .num n => toString n
  | .boolean b => cond b "true" "false"
  | .null => "null"
  | .undefined => "undefined"

/-- JavaScript nullish coalescing on JSVal. -/
def nullish (v d : JSVal) : JSVal :=
  match v with
  | .null => d
  | .undefined => d
  | x => x

/-- The DEFAULT_RESULTS_COUNT constant of the source. -/
def DEFAULT_RESULTS_COUNT : JSVal := .num 5

/-- The process environment variables the source reads, each an Option
String, none meaning the variable is unset. -/
structure Env where
  BRAVE_API_KEY : Option String
  ANTHROPIC_API_KEY : Option String
  OPENAI_API_KEY : Option String
  GOOGLE_API_KEY : Option String
  OPENROUTER_API_KEY : Option String
  XAI_API_KEY : Option String
deriving DecidableEq, Repr

/-- JavaScript truthiness of a possibly-missing environment string: a
missing variable and an empty string are both falsy. -/
def envTruthy : Option String → Bool
  | none => false
  | some s => s ≠ ""

/-- One raw entry of data.web.results in a Brave web-search response
body; each field may be absent. -/
structure RawWebResult where
  title : Option String
  url : Option String
  description : Option String
deriving DecidableEq, Repr

/-- The web field of a Brave web-search response body. -/
structure BraveWebField where
  results : Option (List RawWebResult)
deriving DecidableEq, Repr

/-- A Brave web-search response body, with its possibly-missing nested
web field. -/
structure BraveWebBody where
  web : Option BraveWebField
deriving DecidableEq, Repr

/-- The thumbnail sub-object of a raw Brave image result. -/
structure RawThumb where
  src : Option String
deriving DecidableEq, Repr

/-- The properties sub-object of a raw Brave image result carrying the
image dimensions. -/
structure RawProps where
  width : Option Int
  height : Option Int
deriving DecidableEq, Repr

/-- One raw entry of data.results in a Brave image-search response body. -/
structure RawImageResult where
  title : Option String
  url : Option String
  thumbnail : Option RawThumb
  source : Option String
  properties : Option RawProps
deriving DecidableEq, Repr

/-- A Brave image-search response body. -/
structure BraveImageBody where
  results : Option (List RawImageResult)
deriving DecidableEq, Repr

/-- Behavior of one HTTP GET as observed by the caller: either the
client throws with a message, or it returns a response whose data field
may be falsy (none). -/
inductive HttpResult (α : Type) where
  | throws (msg : String)
  | returns (data : Option α)
deriving DecidableEq, Repr

/-- One event of the external agent stream consumed by llmWebSearch. -/
inductive StreamEvent where
  | message_delta (content : String)
  | error (err : String)
  | other
deriving DecidableEq, Repr

/-- Ghost classification of the return site that produced an outcome. -/
inductive OutClass where
  | success
  | badInput
  | unknownEngine
  | missingKey
  | malformedResponse
  | transportFail
  | agentError
  | thrown
deriving DecidableEq, Repr

deriving instance DecidableEq for Except

/-- Result of one call into the embedded code: the value the JavaScript
function settles with (Except.error models an exception propagating to
the caller), the ghost branch tag, and ghost counters of performed HTTP
requests and agent invocations. -/
structure Outcome where
  result : Except String String
  tag : OutClass
  httpCalls : Nat
  agentCalls : Nat
deriving DecidableEq, Repr

/-- The world of external effects one dispatch call can observe: the
environment, the response behavior of the two Brave endpoints, and the
agent stream together with an optional exception the stream iteration
raises after its listed events. -/
structure World where
  env : Env
  braveHttp : HttpResult BraveWebBody
  braveImageHttp : HttpResult BraveImageBody
  agentStream : List StreamEvent
  agentThrow : Option String
deriving DecidableEq, Repr

/-- The normalized SearchResult object built by braveSearch; a field is
none when the raw entry lacked it, matching a JavaScript object property
holding undefined. -/
structure SearchResultObj where
  title : Option String
  url : Option String
  snippet : Option String
deriving DecidableEq, Repr

/-- The normalized ImageSearchResult object built by braveImageSearch. -/
structure ImageResultObj where
  title : String
  url : Option String
  thumbnail : Option String
  source : String
  width : Option Int
  height : Option Int
deriving DecidableEq, Repr

/-- JavaScript or-default on a possibly-missing string: the left value
when it is truthy, otherwise the default string. -/
def jsOr (v : Option String) (d : String) : String :=
  match v with
  | some s => if s = "" then d else s
  | none => d

/-- JavaScript or between two possibly-missing strings: the left value
when truthy, otherwise the right value unchanged. -/
def jsOrOpt (v w : Option String) : Option String :=
  match v with
  | some s => if s = "" then w else some s
  | none => w

/-- Field mapping of one raw web result, from the map callback of
braveSearch: title, url and snippet copied from title, url and
description of the raw entry. -/
def normWeb (r : RawWebResult) : SearchResultObj :=
  ⟨r.title, r.url, r.description⟩

/-- Field mapping of one raw image result, from the map callback of
braveImageSearch: title defaults to Untitled, thumbnail falls back from
thumbnail.src to url, source defaults to Unknown, and the dimensions are
read from the optional properties sub-object. -/
def normImage (r : RawImageResult) : ImageResultObj :=
  ⟨jsOr r.title "Untitled",
   r.url,
   jsOrOpt (r.thumbnail.bind RawThumb.src) r.url,
   jsOr r.source "Unknown",
   r.properties.bind RawProps.width,
   r.properties.bind RawProps.height⟩

/-- JSON object rendering from a list of already-rendered fields. -/
def jsonObj (fields : List (String × String)) : String :=
  "\x7b" ++ String.intercalate "," (fields.map (fun f => jsonStr f.1 ++ ":" ++ f.2)) ++ "\x7d"

/-- JSON array rendering from already-rendered elements. -/
def jsonArr (elems : List String) : String :=
  "[" ++ String.intercalate "," elems ++ "]"

/-- A JSON field present exactly when its string value is defined. -/
def optField (k : String) (v : Option String) : List (String × String) :=
  match v with
  | some s => [(k, jsonStr s)]
  | none => []

/-- A JSON field present exactly when its numeric value is defined. -/
def optNumField (k : String) (v : Option Int) : List (String × String) :=
  match v with
  | some n => [(k, toString n)]
  | none => []

/-- JSON.stringify of one normalized web result object, fields in
insertion order, undefined fields omitted. -/
def stringifyWebObj (o : SearchResultObj) : String :=
  jsonObj (optField "title" o.title ++ optField "url" o.url ++ optField "snippet" o.snippet)

/-- JSON.stringify of one normalized image result object, fields in
insertion order, undefined fields omitted. -/
def stringifyImageObj (o : ImageResultObj) : String :=
  jsonObj ([("title", jsonStr o.title)] ++ optField "url" o.url ++
    optField "thumbnail" o.thumbnail ++ [("source", jsonStr o.source)] ++
    optNumField "width" o.width ++ optNumField "height" o.height)

/-- The truthiness chain data and data.web and data.web.results of
braveSearch, as an Option of the raw results list. -/
def braveWebResults (data : Option BraveWebBody) : Option (List RawWebResult) :=
  (data.bind BraveWebBody.web).bind BraveWebField.results

/-- The truthiness chain data and data.results of braveImageSearch. -/
def braveImageResults (data : Option BraveImageBody) : Option (List RawImageResult) :=
  data.bind BraveImageBody.results

/-- Embedding of braveSearch from src/index.ts: query type check, then
the internal BRAVE_API_KEY check, then one GET whose outcome is taken
from the oracle; the try block converts a thrown transport error into
the Error performing Brave search message, a response missing the nested
structure into the invalid-structure message, and a well-formed response
into the JSON serialization of the mapped results. -/
def braveSearch (env : Env) (http : HttpResult BraveWebBody)
    (query : JSVal) (numResults : JSVal) : Outcome :=
  if typeofVal query ≠ "string" then
    ⟨.ok ("Error: Search query must be a string, received " ++ typeofVal query ++ ": " ++
      jsonStringifyVal query), .badInput, 0, 0⟩
  else if ¬ envTruthy env.BRAVE_API_KEY then
    ⟨.ok "Error: Brave Search API key is not configured. Cannot perform search.",
      .missingKey, 0, 0⟩
  else
    match http with
    | .throws msg =>
        ⟨.ok ("Error performing Brave search: " ++ msg), .transportFail, 1, 0⟩
    | .returns data =>
        match braveWebResults data with
        | some rs =>
            ⟨.ok (jsonArr ((rs.map normWeb).map stringifyWebObj)), .success, 1, 0⟩
        | none =>
            ⟨.ok "Error: Received an invalid response structure from Brave Search API.",
              .malformedResponse, 1, 0⟩

/-- Embedding of braveImageSearch from src/index.ts, parallel to
braveSearch with the image endpoint, image field mapping and the image
variants of the error messages. -/
def braveImageSearch (env : Env) (http : HttpResult BraveImageBody)
    (query : JSVal) (numResults : JSVal) : Outcome :=
  if typeofVal query ≠ "string" then
    ⟨.ok ("Error: Search query must be a string, received " ++ typeofVal query ++ ": " ++
      jsonStringifyVal query), .badInput, 0, 0⟩
  else if ¬ envTruthy env.BRAVE_API_KEY then
    ⟨.ok "Error: Brave Search API key is not configured. Cannot perform image search.",
      .missingKey, 0, 0⟩
  else
    match http with
    | .throws msg =>
        ⟨.ok ("Error performing Brave image search: " ++ msg), .transportFail, 1, 0⟩
    | .returns data =>
        match braveImageResults data with
        | some rs =>
            ⟨.ok (jsonArr ((rs.map normImage).map stringifyImageObj)), .success, 1, 0⟩
        | none =>
            ⟨.ok "Error: Received an invalid response structure from Brave Image Search API.",
              .malformedResponse, 1, 0⟩

/-- The for-await loop body of llmWebSearch over the agent stream:
message_delta events are accumulated, the first error event breaks with
its payload, other events are ignored. Returns the accumulated text and
the error payload when one occurred. -/
def collectStream : List StreamEvent → String → String × Option String
  | [], acc => (acc, none)
  | .message_delta c :: rest, acc => collectStream rest (acc ++ c)
  | .error e :: _, acc => (acc, some e)
  | .other :: rest, acc => collectStream rest acc

/-- Embedding of llmWebSearch from src/index.ts: one agent invocation is
performed unconditionally; an error event reported by the stream yields
the Error prefixed string, an exception raised by the stream iteration
after its events propagates out (there is no try-catch on this path),
and otherwise the accumulated text is returned. The model, name and
instruction arguments configure the external agent and do not influence
the oracle-driven outcome. -/
def llmWebSearch (events : List StreamEvent) (thrown : Option String)
    (query : JSVal) (model agentName instructions : String) : Outcome :=
  match collectStream events "" with
  | (_, some e) => ⟨.ok ("Error: " ++ e), .agentError, 0, 1⟩
  | (acc, none) =>
      match thrown with
      | some m => ⟨.error m, .thrown, 0, 1⟩
      | none => ⟨.ok acc, .success, 0, 1⟩

/-- The overload-resolved arguments of web_search. -/
structure ResolvedArgs where
  inject_agent_id : JSVal
  engine : JSVal
  query : JSVal
  numResults : JSVal
deriving DecidableEq, Repr

/-- The overload-resolution block at the top of the web_search
implementation: when the second and third positional values are both
strings the call carries a leading agent id, otherwise the first
positional value is the engine. -/
def resolveArgs (engineOrInjectId queryOrEngine numResultsOrQuery numResultsParam : JSVal) :
    ResolvedArgs :=
  if typeofVal queryOrEngine = "string" ∧ typeofVal numResultsOrQuery = "string" then
    ⟨engineOrInjectId, queryOrEngine, numResultsOrQuery,
      nullish numResultsParam DEFAULT_RESULTS_COUNT⟩
  else
    ⟨.null, engineOrInjectId, queryOrEngine,
      nullish numResultsOrQuery DEFAULT_RESULTS_COUNT⟩

/-- The perplexity model identifier chosen by the sonar branch of the
dispatcher switch. -/
def perplexityModel (engine : JSVal) : String :=
  "perplexity/" ++
    (if engine = JSVal.str "sonar-deep-research" then toStringVal engine
     else if engine = JSVal.str "sonar-pro" then "sonar-reasoning-pro"
     else "sonar-reasoning")

/-- The perplexity display name chosen by the sonar branch of the
dispatcher switch. -/
def perplexityName (engine : JSVal) : String :=
  "Perplexity" ++
    (if engine = JSVal.str "sonar-deep-research" then "Research"
     else if engine = JSVal.str "sonar-pro" then "ProSearch"
     else "Search")

/-- The switch statement of the web_search implementation over the
resolved engine value: each case checks its gating environment variable
before routing to the matching transport, and the default case produces
the invalid-engine message. The switch compares with strict equality, so
a non-string engine value always reaches the default case. -/
def dispatchEngine (w : World) (engine query numResults : JSVal) : Outcome :=
  if engine = JSVal.str "brave" then
    if ¬ envTruthy w.env.BRAVE_API_KEY then
      ⟨.ok "Error: Brave API key not configured.", .missingKey, 0, 0⟩
    else braveSearch w.env w.braveHttp query numResults
  else if engine = JSVal.str "brave-images" then
    if ¬ envTruthy w.env.BRAVE_API_KEY then
      ⟨.ok "Error: Brave API key not configured.", .missingKey, 0, 0⟩
    else braveImageSearch w.env w.braveImageHttp query numResults
  else if engine = JSVal.str "anthropic" then
    if ¬ envTruthy w.env.ANTHROPIC_API_KEY then
      ⟨.ok "Error: Anthropic API key not configured.", .missingKey, 0, 0⟩
    else llmWebSearch w.agentStream w.agentThrow query "claude-3-7-sonnet-latest"
      "ClaudeSearch" "Please search the web for this query."
  else if engine = JSVal.str "openai" then
    if ¬ envTruthy w.env.OPENAI_API_KEY then
      ⟨.ok "Error: OpenAI API key not configured.", .missingKey, 0, 0⟩
    else llmWebSearch w.agentStream w.agentThrow query "gpt-4.1"
      "OpenAISearch" "Please search the web for this query."
  else if engine = JSVal.str "google" then
    if ¬ envTruthy w.env.GOOGLE_API_KEY then
      ⟨.ok "Error: Google API key not configured.", .missingKey, 0, 0⟩
    else llmWebSearch w.agentStream w.agentThrow query "gemini-2.5-flash-preview-04-17"
      "GoogleSearch" "Please answer this using search grounding."
  else if engine = JSVal.str "sonar" ∨ engine = JSVal.str "sonar-pro" ∨
      engine = JSVal.str "sonar-deep-research" then
    if ¬ envTruthy w.env.OPENROUTER_API_KEY then
      ⟨.ok "Error: OpenRouter API key not configured.", .missingKey, 0, 0⟩
    else llmWebSearch w.agentStream w.agentThrow query (perplexityModel engine)
      (perplexityName engine) "Please answer this using the latest information available."
  else if engine = JSVal.str "xai" then
    if ¬ envTruthy w.env.XAI_API_KEY then
      ⟨.ok "Error: X.AI API key not configured.", .missingKey, 0, 0⟩
    else llmWebSearch w.agentStream w.agentThrow query "grok-3-latest"
      "GrokSearch" "Please search the web for this query."
  else
    ⟨.ok ("Error: Invalid or unsupported search engine " ++ toStringVal engine),
      .unknownEngine, 0, 0⟩

/-- Embedding of the web_search implementation from src/index.ts: the
overload-resolution block binding the engine, query and numResults
locals, followed by the switch over the engine value. -/
def web_search (w : World)
    (engineOrInjectId queryOrEngine numResultsOrQuery numResultsParam : JSVal) : Outcome :=
  dispatchEngine w
    (resolveArgs engineOrInjectId queryOrEngine numResultsOrQuery numResultsParam).engine
    (resolveArgs engineOrInjectId queryOrEngine numResultsOrQuery numResultsParam).query
    (resolveArgs engineOrInjectId queryOrEngine numResultsOrQuery numResultsParam).numResults

/-- The fixed enumerated engine identifier set handled by the switch of
web_search. -/
def enginesFixed : List String :=
  ["brave", "brave-images", "anthropic", "openai", "google",
   "sonar", "sonar-pro", "sonar-deep-research", "xai"]

/-- The engine identifiers routed to the LLM-backed adapter. -/
def llmEngineIds : List String :=
  ["anthropic", "openai", "google", "sonar", "sonar-pro", "sonar-deep-research", "xai"]

/-- The availableEngines list built by getSearchTools from src/index.ts,
in the push order of the source: each credential check appends its
engine identifiers when the variable is truthy. -/
def getSearchToolsEngines (env : Env) : List String :=
  (if envTruthy env.ANTHROPIC_API_KEY then ["anthropic"] else []) ++
  (if envTruthy env.BRAVE_API_KEY then ["brave", "brave-images"] else []) ++
  (if envTruthy env.OPENAI_API_KEY then ["openai"] else []) ++
  (if envTruthy env.GOOGLE_API_KEY then ["google"] else []) ++
  (if envTruthy env.XAI_API_KEY then ["xai"] else []) ++
  (if envTruthy env.OPENROUTER_API_KEY then ["sonar", "sonar-pro", "sonar-deep-research"] else [])

/-- Character data of an appended string is the appended character data. -/
theorem data_append (p m : String) : (p ++ m).data = p.data ++ m.data := by
  cases p
  cases m
  rfl

/-- Taking the length of the left part of an appended string returns
exactly the left part. -/
theorem take_data_append (p m : String) : (p ++ m).data.take p.data.length = p.data := by
  rw [data_append]
  exact List.take_left p.data m.data

/-- A string whose leading characters differ from p is not p followed by
anything. -/
theorem ne_of_take_mismatch (p x t : String)
    (h : t.data.take p.data.length ≠ p.data) : p ++ x ≠ t := by
  intro he
  apply h
  rw [← he, take_data_append]

/-- A string whose leading characters differ from p is not of the form p
followed by anything. -/
theorem not_exists_of_take_mismatch (p t : String)
    (h : t.data.take p.data.length ≠ p.data) : ¬ ∃ m, t = p ++ m := by
  rintro ⟨m, hm⟩
  exact ne_of_take_mismatch p m t h hm.symm

/-- An ok outcome built from a string with a known split off the Error:
literal is ok of an Error: prefixed string. -/
theorem ok_err_split (res : Except String String) (p x r : String)
    (hres : res = .ok (p ++ x)) (hp : p = "Error:" ++ r) :
    ∃ m, res = Except.ok ("Error:" ++ m) :=
  ⟨r ++ x, by rw [hres, hp, String.append_assoc]⟩

/-- Case analysis of braveSearch under a configured key: the outcome is
the bad-input message, the transport-failure message, the
invalid-structure message, or the serialized results, with the matching
ghost tag. -/
theorem braveSearch_cases (env : Env) (http : HttpResult BraveWebBody)
    (query numResults : JSVal) (hk : envTruthy env.BRAVE_API_KEY = true) :
    ((braveSearch env http query numResults).tag = OutClass.badInput ∧
      ∃ t v, (braveSearch env http query numResults).result
        = .ok ("Error: Search query must be a string, received " ++ (t ++ (": " ++ v)))) ∨
    ((braveSearch env http query numResults).tag = OutClass.transportFail ∧
      ∃ m, (braveSearch env http query numResults).result
        = .ok ("Error performing Brave search: " ++ m)) ∨
    ((braveSearch env http query numResults).tag = OutClass.malformedResponse ∧
      (braveSearch env http query numResults).result
        = .ok "Error: Received an invalid response structure from Brave Search API.") ∨
    ((braveSearch env http query numResults).tag = OutClass.success ∧
      ∃ es, (braveSearch env http query numResults).result = .ok (jsonArr es)) := by
  unfold braveSearch
  by_cases h1 : typeofVal query ≠ "string"
  · rw [if_pos h1]
    exact Or.inl ⟨rfl, typeofVal query, jsonStringifyVal query, by simp [String.append_assoc]⟩
  · rw [if_neg h1, if_neg (by simp [hk])]
    rcases http with msg | data
    · exact Or.inr (Or.inl ⟨rfl, msg, rfl⟩)
    · rcases hw : braveWebResults data with _ | rs <;> simp only [hw]
      · exact Or.inr (Or.inr (Or.inl (by simp)))
      · exact Or.inr (Or.inr (Or.inr (by simp)))

/-- Case analysis of braveImageSearch under a configured key. -/
theorem braveImageSearch_cases (env : Env) (http : HttpResult BraveImageBody)
    (query numResults : JSVal) (hk : envTruthy env.BRAVE_API_KEY = true) :
    ((braveImageSearch env http query numResults).tag = OutClass.badInput ∧
      ∃ t v, (braveImageSearch env http query numResults).result
        = .ok ("Error: Search query must be a string, received " ++ (t ++ (": " ++ v)))) ∨
    ((braveImageSearch env http query numResults).tag = OutClass.transportFail ∧
      ∃ m, (braveImageSearch env http query numResults).result
        = .ok ("Error performing Brave image search: " ++ m)) ∨
    ((braveImageSearch env http query numResults).tag = OutClass.malformedResponse ∧
      (braveImageSearch env http query numResults).result
        = .ok "Error: Received an invalid response structure from Brave Image Search API.") ∨
    ((braveImageSearch env http query numResults).tag = OutClass.success ∧
      ∃ es, (braveImageSearch env http query numResults).result = .ok (jsonArr es)) := by
  unfold braveImageSearch
  by_cases h1 : typeofVal query ≠ "string"
  · rw [if_pos h1]
    exact Or.inl ⟨rfl, typeofVal query, jsonStringifyVal query, by simp [String.append_assoc]⟩
  · rw [if_neg h1, if_neg (by simp [hk])]
    rcases http with msg | data
    · exact Or.inr (Or.inl ⟨rfl, msg, rfl⟩)
    · rcases hw : braveImageResults data with _ | rs <;> simp only [hw]
      · exact Or.inr (Or.inr (Or.inl (by simp)))
      · exact Or.inr (Or.inr (Or.inr (by simp)))

/-- Case analysis of llmWebSearch: an error event yields the Error
prefixed string, an exception raised by the stream propagates, and
otherwise the accumulated text is returned. -/
theorem llmWebSearch_cases (events : List StreamEvent) (thrown : Option String)
    (query : JSVal) (model agentName instructions : String) :
    ((llmWebSearch events thrown query model agentName instructions).tag = OutClass.agentError ∧
      ∃ e, (llmWebSearch events thrown query model agentName instructions).result
        = .ok ("Error: " ++ e)) ∨
    ((llmWebSearch events thrown query model agentName instructions).tag = OutClass.thrown ∧
      ∃ m, thrown = some m ∧
        (llmWebSearch events thrown query model agentName instructions).result = .error m) ∨
    ((llmWebSearch events thrown query model agentName instructions).tag = OutClass.success ∧
      ∃ s, (llmWebSearch events thrown query model agentName instructions).result = .ok s) := by
  unfold llmWebSearch
  rcases hc : collectStream events "" with ⟨acc, err⟩
  rcases err with _ | e
  · rcases thrown with _ | m
    · exact Or.inr (Or.inr ⟨rfl, acc, rfl⟩)
    · exact Or.inr (Or.inl ⟨rfl, m, rfl, rfl⟩)
  · exact Or.inl ⟨rfl, e, rfl⟩

/-- braveSearch settles with an ok string on every input: the try block
converts every transport failure. -/
theorem braveSearch_ok (env : Env) (http : HttpResult BraveWebBody)
    (query numResults : JSVal) :
    ∃ s, (braveSearch env http query numResults).result = .ok s := by
  unfold braveSearch
  by_cases h1 : typeofVal query ≠ "string"
  · rw [if_pos h1]
    exact ⟨_, rfl⟩
  · rw [if_neg h1]
    by_cases h2 : ¬ envTruthy env.BRAVE_API_KEY
    · rw [if_pos h2]
      exact ⟨_, rfl⟩
    · rw [if_neg h2]
      rcases http with msg | data
      · exact ⟨_, rfl⟩
      · rcases hw : braveWebResults data with _ | rs <;> simp only [hw] <;> exact ⟨_, rfl⟩

/-- braveImageSearch settles with an ok string on every input. -/
theorem braveImageSearch_ok (env : Env) (http : HttpResult BraveImageBody)
    (query numResults : JSVal) :
    ∃ s, (braveImageSearch env http query numResults).result = .ok s := by
  unfold braveImageSearch
  by_cases h1 : typeofVal query ≠ "string"
  · rw [if_pos h1]
    exact ⟨_, rfl⟩
  · rw [if_neg h1]
    by_cases h2 : ¬ envTruthy env.BRAVE_API_KEY
    · rw [if_pos h2]
      exact ⟨_, rfl⟩
    · rw [if_neg h2]
      rcases http with msg | data
      · exact ⟨_, rfl⟩
      · rcases hw : braveImageResults data with _ | rs <;> simp only [hw] <;> exact ⟨_, rfl⟩

/-- llmWebSearch settles with an ok string whenever the stream iteration
does not raise an exception. -/
theorem llmWebSearch_ok_of_nothrow (events : List StreamEvent)
    (query : JSVal) (model agentName instructions : String) :
    ∃ s, (llmWebSearch events none query model agentName instructions).result = .ok s := by
  unfold llmWebSearch
  rcases hc : collectStream events "" with ⟨acc, err⟩
  rcases err with _ | e
  · exact ⟨acc, rfl⟩
  · exact ⟨_, rfl⟩

/-- C2: for every engine identifier outside the fixed enumerated set,
and every query value and integer count, web_search returns exactly the
invalid-engine message followed by the identifier, performing no call. -/
theorem C2_unknown_engine (w : World) (e : String) (he : e ∉ enginesFixed)
    (q : JSVal) (n : Int) :
    web_search w (.str e) q (.num n) .undefined
      = ⟨.ok ("Error: Invalid or unsupported search engine " ++ e),
          .unknownEngine, 0, 0⟩ := by
  simp only [enginesFixed, List.mem_cons, List.not_mem_nil, or_false, not_or] at he
  obtain ⟨h1, h2, h3, h4, h5, h6, h7, h8, h9⟩ := he
  simp [web_search, dispatchEngine, resolveArgs, typeofVal, toStringVal, h1, h2, h3, h4, h5, h6, h7, h8, h9]

/-- C2 witness: the end-to-end scenario with the unknown-engine
identifier produces exactly the expected message. -/
theorem C2_unknown_engine_witness :
    "unknown-engine" ∉ enginesFixed ∧
    web_search ⟨⟨none, none, none, none, none, none⟩, .returns none, .returns none, [], none⟩
        (.str "unknown-engine") (.str "q") (.num 5) .undefined
      = ⟨.ok ("Error: Invalid or unsupported search engine " ++ "unknown-engine"),
          .unknownEngine, 0, 0⟩ ∧
    ("Error: Invalid or unsupported search engine " ++ "unknown-engine"
      = "Error: Invalid or unsupported search engine unknown-engine") :=
  ⟨by decide,
   C2_unknown_engine ⟨⟨none, none, none, none, none, none⟩, .returns none, .returns none, [], none⟩
     "unknown-engine" (by decide) (.str "q") 5,
   by decide⟩

/-- C3: for every engine of the fixed set, when the gating credential
variable is unset the dispatcher returns the provider-specific key
error message and performs no HTTP request and no agent invocation. -/
theorem C3_missing_key (w : World) (q : JSVal) (n : Int) :
    (w.env.BRAVE_API_KEY = none →
      web_search w (.str "brave") q (.num n) .undefined
        = ⟨.ok "Error: Brave API key not configured.", .missingKey, 0, 0⟩ ∧
      web_search w (.str "brave-images") q (.num n) .undefined
        = ⟨.ok "Error: Brave API key not configured.", .missingKey, 0, 0⟩) ∧
    (w.env.ANTHROPIC_API_KEY = none →
      web_search w (.str "anthropic") q (.num n) .undefined
        = ⟨.ok "Error: Anthropic API key not configured.", .missingKey, 0, 0⟩) ∧
    (w.env.OPENAI_API_KEY = none →
      web_search w (.str "openai") q (.num n) .undefined
        = ⟨.ok "Error: OpenAI API key not configured.", .missingKey, 0, 0⟩) ∧
    (w.env.GOOGLE_API_KEY = none →
      web_search w (.str "google") q (.num n) .undefined
        = ⟨.ok "Error: Google API key not configured.", .missingKey, 0, 0⟩) ∧
    (w.env.OPENROUTER_API_KEY = none →
      web_search w (.str "sonar") q (.num n) .undefined
        = ⟨.ok "Error: OpenRouter API key not configured.", .missingKey, 0, 0⟩ ∧
      web_search w (.str "sonar-pro") q (.num n) .undefined
        = ⟨.ok "Error: OpenRouter API key not configured.", .missingKey, 0, 0⟩ ∧
      web_search w (.str "sonar-deep-research") q (.num n) .undefined
        = ⟨.ok "Error: OpenRouter API key not configured.", .missingKey, 0, 0⟩) ∧
    (w.env.XAI_API_KEY = none →
      web_search w (.str "xai") q (.num n) .undefined
        = ⟨.ok "Error: X.AI API key not configured.", .missingKey, 0, 0⟩) := by
  refine ⟨fun h => ⟨?_, ?_⟩, fun h => ?_, fun h => ?_, fun h => ?_,
    fun h => ⟨?_, ?_, ?_⟩, fun h => ?_⟩ <;>
    simp [web_search, dispatchEngine, resolveArgs, typeofVal, envTruthy, h]

/-- C3 witness: the end-to-end scenario of the brave engine with the
BRAVE_API_KEY variable unset. -/
theorem C3_missing_key_witness :
    (⟨⟨none, none, none, none, none, none⟩, .returns none, .returns none, [], none⟩ :
        World).env.BRAVE_API_KEY = none ∧
    web_search ⟨⟨none, none, none, none, none, none⟩, .returns none, .returns none, [], none⟩
        (.str "brave") (.str "sunset photo") (.num 2) .undefined
      = ⟨.ok "Error: Brave API key not configured.", .missingKey, 0, 0⟩ :=
  ⟨rfl,
   ((C3_missing_key ⟨⟨none, none, none, none, none, none⟩, .returns none, .returns none, [], none⟩
      (.str "sunset photo") 2).1 rfl).1⟩

/-- C4 counterexample: the end-to-end scenario dispatch(123, query, 5)
of the claim does not produce the query-type message: the value 123
occupies the engine position of the overload without an agent id, so the
outcome is the invalid-engine message rendering 123. -/
theorem C4_counterexample :
    web_search ⟨⟨some "k", some "k", some "k", some "k", some "k", some "k"⟩,
        .returns none, .returns none, [], none⟩
        (.num 123) (.str "query") (.num 5) .undefined
      = ⟨.ok "Error: Invalid or unsupported search engine 123", .unknownEngine, 0, 0⟩ ∧
    ¬ ∃ m, ("Error: Invalid or unsupported search engine 123" : String)
        = "Error: Search query must be a string" ++ m :=
  ⟨by decide, not_exists_of_take_mismatch _ _ (by decide)⟩

/-- C4 amended: only the brave and brave-images transports perform the
query type check; with the Brave credential configured, a non-string
query yields the query-type message and no HTTP request, while the
particular call with 123 first reaches the default switch branch. -/
theorem C4_amended (w : World) (q : JSVal) (n : Int)
    (hq : typeofVal q ≠ "string")
    (hk : envTruthy w.env.BRAVE_API_KEY = true) :
    web_search w (.str "brave") q (.num n) .undefined
      = ⟨.ok ("Error: Search query must be a string, received " ++ typeofVal q ++ ": " ++
          jsonStringifyVal q), .badInput, 0, 0⟩ ∧
    web_search w (.str "brave-images") q (.num n) .undefined
      = ⟨.ok ("Error: Search query must be a string, received " ++ typeofVal q ++ ": " ++
          jsonStringifyVal q), .badInput, 0, 0⟩ ∧
    web_search w (.num 123) (.str "query") (.num 5) .undefined
      = ⟨.ok "Error: Invalid or unsupported search engine 123", .unknownEngine, 0, 0⟩ := by
  rcases q with s | m | b | _ | _
  · exact absurd rfl hq
  all_goals refine ⟨?_, ?_, ?_⟩ <;>
    simp [web_search, dispatchEngine, resolveArgs, braveSearch, braveImageSearch, typeofVal,
      toStringVal, jsonStringifyVal, hk] <;> decide

/-- C4 amended witness: a numeric query against the brave engine with a
configured key. -/
theorem C4_amended_witness :
    typeofVal (.num 7) ≠ "string" ∧
    envTruthy (⟨⟨some "k", none, none, none, none, none⟩, .returns none, .returns none, [], none⟩ :
        World).env.BRAVE_API_KEY = true ∧
    web_search ⟨⟨some "k", none, none, none, none, none⟩, .returns none, .returns none, [], none⟩
        (.str "brave") (.num 7) (.num 5) .undefined
      = ⟨.ok ("Error: Search query must be a string, received " ++ typeofVal (.num 7) ++ ": " ++
          jsonStringifyVal (.num 7)), .badInput, 0, 0⟩ :=
  ⟨by decide, by decide,
   (C4_amended ⟨⟨some "k", none, none, none, none, none⟩, .returns none, .returns none, [], none⟩
      (.num 7) 5 (by decide) (by decide)).1⟩

/-- C9: for every credential configuration, the registry enables brave
exactly when it enables brave-images, and enables sonar exactly when it
enables sonar-pro and exactly when it enables sonar-deep-research. -/
theorem C9_registry_coupling (env : Env) :
    (("brave" ∈ getSearchToolsEngines env) ↔ ("brave-images" ∈ getSearchToolsEngines env)) ∧
    (("sonar" ∈ getSearchToolsEngines env) ↔ ("sonar-pro" ∈ getSearchToolsEngines env)) ∧
    (("sonar" ∈ getSearchToolsEngines env) ↔
      ("sonar-deep-research" ∈ getSearchToolsEngines env)) := by
  simp only [getSearchToolsEngines]
  split_ifs <;> decide

/-- C10: whenever the overload resolution routes a call to the brave or
brave-images engine, web_search never settles with the differently
worded internal key message of the transports: the dispatcher-level key
check fires first under exactly the same truthiness condition. -/
theorem C10_inner_key_message_unreachable (w : World) (a b c d : JSVal)
    (he : (resolveArgs a b c d).engine = JSVal.str "brave" ∨
          (resolveArgs a b c d).engine = JSVal.str "brave-images") :
    (web_search w a b c d).result
      ≠ .ok "Error: Brave Search API key is not configured. Cannot perform search." ∧
    (web_search w a b c d).result
      ≠ .ok "Error: Brave Search API key is not configured. Cannot perform image search." := by
  unfold web_search dispatchEngine
  rcases he with h | h <;> rw [h]
  · rw [if_pos rfl]
    by_cases hk : envTruthy w.env.BRAVE_API_KEY
    · rw [if_neg (by simp [hk])]
      rcases braveSearch_cases w.env w.braveHttp (resolveArgs a b c d).query
          (resolveArgs a b c d).numResults (by simp [hk]) with
        ⟨_, t, v, hr⟩ | ⟨_, m, hr⟩ | ⟨_, hr⟩ | ⟨_, es, hr⟩ <;> rw [hr] <;>
        constructor <;> intro hx <;> injection hx with hx
      · exact ne_of_take_mismatch _ _ _ (by decide) hx
      · exact ne_of_take_mismatch _ _ _ (by decide) hx
      · exact ne_of_take_mismatch _ _ _ (by decide) hx
      · exact ne_of_take_mismatch _ _ _ (by decide) hx
      · exact absurd hx (by decide)
      · exact absurd hx (by decide)
      · exact ne_of_take_mismatch "[" (String.intercalate "," es ++ "]")
          "Error: Brave Search API key is not configured. Cannot perform search."
          (by decide) (by simpa [jsonArr, String.append_assoc] using hx)
      · exact ne_of_take_mismatch "[" (String.intercalate "," es ++ "]")
          "Error: Brave Search API key is not configured. Cannot perform image search."
          (by decide) (by simpa [jsonArr, String.append_assoc] using hx)
    · rw [if_pos (by simp [hk])]
      constructor <;> intro hx <;> injection hx with hx <;> exact absurd hx (by decide)
  · rw [if_neg (by decide), if_pos rfl]
    by_cases hk : envTruthy w.env.BRAVE_API_KEY
    · rw [if_neg (by simp [hk])]
      rcases braveImageSearch_cases w.env w.braveImageHttp (resolveArgs a b c d).query
          (resolveArgs a b c d).numResults (by simp [hk]) with
        ⟨_, t, v, hr⟩ | ⟨_, m, hr⟩ | ⟨_, hr⟩ | ⟨_, es, hr⟩ <;> rw [hr] <;>
        constructor <;> intro hx <;> injection hx with hx
      · exact ne_of_take_mismatch _ _ _ (by decide) hx
      · exact ne_of_take_mismatch _ _ _ (by decide) hx
      · exact ne_of_take_mismatch _ _ _ (by decide) hx
      · exact ne_of_take_mismatch _ _ _ (by decide) hx
      · exact absurd hx (by decide)
      · exact absurd hx (by decide)
      · exact ne_of_take_mismatch "[" (String.intercalate "," es ++ "]")
          "Error: Brave Search API key is not configured. Cannot perform search."
          (by decide) (by simpa [jsonArr, String.append_assoc] using hx)
      · exact ne_of_take_mismatch "[" (String.intercalate "," es ++ "]")
          "Error: Brave Search API key is not configured. Cannot perform image search."
          (by decide) (by simpa [jsonArr, String.append_assoc] using hx)
    · rw [if_pos (by simp [hk])]
      constructor <;> intro hx <;> injection hx with hx <;> exact absurd hx (by decide)

/-- C10 witness: a concrete brave call with the key unset settles with
the dispatcher-level message and never the internal transport message. -/
theorem C10_inner_key_message_unreachable_witness :
    (resolveArgs (.str "brave") (.str "q") (.num 5) .undefined).engine = JSVal.str "brave" ∧
    ((web_search ⟨⟨none, none, none, none, none, none⟩, .returns none, .returns none, [], none⟩
        (.str "brave") (.str "q") (.num 5) .undefined).result
      ≠ .ok "Error: Brave Search API key is not configured. Cannot perform search.") :=
  ⟨by decide,
   (C10_inner_key_message_unreachable
      ⟨⟨none, none, none, none, none, none⟩, .returns none, .returns none, [], none⟩
      (.str "brave") (.str "q") (.num 5) .undefined (Or.inl (by decide))).1⟩

/-- C5: when the brave backend responds with a results list of k raw
entries, the outcome is the serialization of exactly the mapped list:
its length equals k, the entry at every index is the field mapping of
the raw entry at the same index, and the whole outcome is unchanged
under any other numResults argument. -/
theorem C5_order_preserved (w : World) (q : String) (n m : Int)
    (rs : List RawWebResult)
    (hk : envTruthy w.env.BRAVE_API_KEY = true)
    (hr : w.braveHttp = .returns (some ⟨some ⟨some rs⟩⟩)) :
    (web_search w (.str "brave") (.str q) (.num n) .undefined).result
      = .ok (jsonArr ((rs.map normWeb).map stringifyWebObj)) ∧
    (rs.map normWeb).length = rs.length ∧
    (∀ i : Nat, (rs.map normWeb)[i]? = (rs[i]?).map normWeb) ∧
    web_search w (.str "brave") (.str q) (.num n) .undefined
      = web_search w (.str "brave") (.str q) (.num m) .undefined := by
  refine ⟨?_, by simp, fun i => by simp, ?_⟩ <;>
    simp [web_search, dispatchEngine, resolveArgs, typeofVal, braveSearch, braveWebResults, hk, hr]

/-- C5 witness: the end-to-end scenario of a mocked backend returning
three raw results, which are serialized in order, unchanged when asking
for a different count. -/
theorem C5_order_preserved_witness :
    envTruthy (⟨⟨some "k", none, none, none, none, none⟩,
        .returns (some ⟨some ⟨some [⟨some "t1", some "u1", some "s1"⟩,
          ⟨some "t2", some "u2", some "s2"⟩, ⟨some "t3", some "u3", some "s3"⟩]⟩⟩),
        .returns none, [], none⟩ : World).env.BRAVE_API_KEY = true ∧
    (⟨⟨some "k", none, none, none, none, none⟩,
        .returns (some ⟨some ⟨some [⟨some "t1", some "u1", some "s1"⟩,
          ⟨some "t2", some "u2", some "s2"⟩, ⟨some "t3", some "u3", some "s3"⟩]⟩⟩),
        .returns none, [], none⟩ : World).braveHttp
      = .returns (some ⟨some ⟨some [⟨some "t1", some "u1", some "s1"⟩,
          ⟨some "t2", some "u2", some "s2"⟩, ⟨some "t3", some "u3", some "s3"⟩]⟩⟩) ∧
    (web_search ⟨⟨some "k", none, none, none, none, none⟩,
        .returns (some ⟨some ⟨some [⟨some "t1", some "u1", some "s1"⟩,
          ⟨some "t2", some "u2", some "s2"⟩, ⟨some "t3", some "u3", some "s3"⟩]⟩⟩),
        .returns none, [], none⟩
        (.str "brave") (.str "rust programming") (.num 3) .undefined).result
      = .ok (jsonArr (([⟨some "t1", some "u1", some "s1"⟩,
          ⟨some "t2", some "u2", some "s2"⟩,
          ⟨some "t3", some "u3", some "s3"⟩].map normWeb).map stringifyWebObj)) :=
  ⟨by decide, rfl,
   (C5_order_preserved _ "rust programming" 3 5 _ (by decide) rfl).1⟩

/-- C6: when the brave image backend responds with a results list, the
outcome serializes the mapped entries, and for every entry of the
response the mapped object takes the Untitled default when title is
absent, falls back to the entry url when the thumbnail is absent, takes
the Unknown default when source is absent, and reads both dimensions
from the nested properties sub-object. -/
theorem C6_image_defaults (w : World) (q : String) (n : Int)
    (rs : List RawImageResult)
    (hk : envTruthy w.env.BRAVE_API_KEY = true)
    (hr : w.braveImageHttp = .returns (some ⟨some rs⟩)) :
    (web_search w (.str "brave-images") (.str q) (.num n) .undefined).result
      = .ok (jsonArr ((rs.map normImage).map stringifyImageObj)) ∧
    ∀ e ∈ rs,
      (e.title = none → (normImage e).title = "Untitled") ∧
      (e.thumbnail = none → (normImage e).thumbnail = e.url) ∧
      (e.source = none → (normImage e).source = "Unknown") ∧
      (normImage e).width = e.properties.bind RawProps.width ∧
      (normImage e).height = e.properties.bind RawProps.height := by
  constructor
  · simp [web_search, dispatchEngine, resolveArgs, typeofVal, braveImageSearch,
      braveImageResults, hk, hr]
  · intro e _
    refine ⟨fun h => by simp [normImage, jsOr, h], fun h => by simp [normImage, jsOrOpt, h],
      fun h => by simp [normImage, jsOr, h], rfl, rfl⟩

/-- C6 witness: a response with one entry omitting title, thumbnail and
source and carrying dimensions, evaluated through the theorem. -/
theorem C6_image_defaults_witness :
    envTruthy (⟨⟨some "k", none, none, none, none, none⟩, .returns none,
        .returns (some ⟨some [⟨none, some "u", none, none, some ⟨some 640, some 480⟩⟩]⟩),
        [], none⟩ : World).env.BRAVE_API_KEY = true ∧
    (web_search ⟨⟨some "k", none, none, none, none, none⟩, .returns none,
        .returns (some ⟨some [⟨none, some "u", none, none, some ⟨some 640, some 480⟩⟩]⟩),
        [], none⟩
        (.str "brave-images") (.str "sunset photo") (.num 2) .undefined).result
      = .ok (jsonArr (([(⟨none, some "u", none, none, some ⟨some 640, some 480⟩⟩ :
          RawImageResult)].map normImage).map stringifyImageObj)) :=
  ⟨by decide,
   (C6_image_defaults _ "sunset photo" 2 [⟨none, some "u", none, none, some ⟨some 640, some 480⟩⟩]
      (by decide) rfl).1⟩

/-- C7 counterexample: a structurally accepted brave response whose
single entry omits every field produces a successful outcome whose
decoded array holds one object with no url at all, refuting the claim
that every object of a successful outcome has a non-empty url. -/
theorem C7_counterexample :
    (web_search ⟨⟨some "k", none, none, none, none, none⟩,
        .returns (some ⟨some ⟨some [⟨none, none, none⟩]⟩⟩), .returns none, [], none⟩
        (.str "brave") (.str "q") (.num 5) .undefined).result = .ok "[\x7b\x7d]" ∧
    (web_search ⟨⟨some "k", none, none, none, none, none⟩,
        .returns (some ⟨some ⟨some [⟨none, none, none⟩]⟩⟩), .returns none, [], none⟩
        (.str "brave") (.str "q") (.num 5) .undefined).tag = OutClass.success ∧
    (normWeb ⟨none, none, none⟩).url = none := by
  refine ⟨by decide, by decide, rfl⟩

/-- C7 amended: the text normalizer copies title, url and snippet
verbatim from each raw entry and the image normalizer copies url
verbatim, so a field of a decoded object is present and non-empty
exactly when the backend supplied it non-empty; the structure check
enforces no field presence. -/
theorem C7_amended (w : World) (q : String) (n : Int) (rs : List RawWebResult)
    (hk : envTruthy w.env.BRAVE_API_KEY = true)
    (hr : w.braveHttp = .returns (some ⟨some ⟨some rs⟩⟩)) :
    (web_search w (.str "brave") (.str q) (.num n) .undefined).result
      = .ok (jsonArr ((rs.map normWeb).map stringifyWebObj)) ∧
    (∀ r ∈ rs, (normWeb r).title = r.title ∧ (normWeb r).url = r.url ∧
      (normWeb r).snippet = r.description) ∧
    (∀ e : RawImageResult, (normImage e).url = e.url) := by
  refine ⟨?_, fun r _ => ⟨rfl, rfl, rfl⟩, fun e => rfl⟩
  simp [web_search, dispatchEngine, resolveArgs, typeofVal, braveSearch, braveWebResults, hk, hr]

/-- C7 amended witness: one raw entry with populated fields is copied
verbatim into the serialized outcome. -/
theorem C7_amended_witness :
    envTruthy (⟨⟨some "k", none, none, none, none, none⟩,
        .returns (some ⟨some ⟨some [⟨some "t", some "u", some "s"⟩]⟩⟩),
        .returns none, [], none⟩ : World).env.BRAVE_API_KEY = true ∧
    (web_search ⟨⟨some "k", none, none, none, none, none⟩,
        .returns (some ⟨some ⟨some [⟨some "t", some "u", some "s"⟩]⟩⟩),
        .returns none, [], none⟩
        (.str "brave") (.str "q") (.num 5) .undefined).result
      = .ok (jsonArr (([(⟨some "t", some "u", some "s"⟩ : RawWebResult)].map
          normWeb).map stringifyWebObj)) :=
  ⟨by decide,
   (C7_amended _ "q" 5 [⟨some "t", some "u", some "s"⟩] (by decide) rfl).1⟩

/-- The error-string taxonomy of one outcome: every failure branch
except a transport failure settles with a string carrying the exact
Error: prefix, while a transport failure settles with one of the two
Error performing prefixes. -/
def errorPrefixTaxonomy (o : Outcome) : Prop :=
  (o.tag = OutClass.badInput ∨ o.tag = OutClass.unknownEngine ∨
   o.tag = OutClass.missingKey ∨ o.tag = OutClass.malformedResponse ∨
   o.tag = OutClass.agentError →
    ∃ m, o.result = Except.ok ("Error:" ++ m)) ∧
  (o.tag = OutClass.transportFail →
    (∃ m, o.result = Except.ok ("Error performing Brave search: " ++ m)) ∨
    (∃ m, o.result = Except.ok ("Error performing Brave image search: " ++ m)))

/-- A closed ok string equal to the Error: literal followed by its own
tail is Error: prefixed. -/
theorem ok_err_of_drop (o : Outcome) (s : String) (hres : o.result = .ok s)
    (h : s = "Error:" ++ s.drop 6) : ∃ m, o.result = Except.ok ("Error:" ++ m) :=
  ⟨s.drop 6, by rw [hres, ← h]⟩

/-- The taxonomy holds for every braveSearch outcome under a configured
key. -/
theorem braveSearch_taxonomy (env : Env) (http : HttpResult BraveWebBody)
    (query numResults : JSVal) (hk : envTruthy env.BRAVE_API_KEY = true) :
    errorPrefixTaxonomy (braveSearch env http query numResults) := by
  rcases braveSearch_cases env http query numResults hk with
    ⟨ht, t, v, hr⟩ | ⟨ht, mm, hr⟩ | ⟨ht, hr⟩ | ⟨ht, es, hr⟩
  · exact ⟨fun _ => ok_err_split _ "Error: Search query must be a string, received "
      (t ++ (": " ++ v)) " Search query must be a string, received " hr (by decide),
      fun htr => absurd (ht.symm.trans htr) (by decide)⟩
  · refine ⟨fun hs => ?_, fun _ => Or.inl ⟨mm, hr⟩⟩
    rcases hs with h' | h' | h' | h' | h' <;> exact absurd (ht.symm.trans h') (by decide)
  · exact ⟨fun _ => ok_err_of_drop _ _ hr (by decide),
      fun htr => absurd (ht.symm.trans htr) (by decide)⟩
  · refine ⟨fun hs => ?_, fun htr => absurd (ht.symm.trans htr) (by decide)⟩
    rcases hs with h' | h' | h' | h' | h' <;> exact absurd (ht.symm.trans h') (by decide)

/-- The taxonomy holds for every braveImageSearch outcome under a
configured key. -/
theorem braveImageSearch_taxonomy (env : Env) (http : HttpResult BraveImageBody)
    (query numResults : JSVal) (hk : envTruthy env.BRAVE_API_KEY = true) :
    errorPrefixTaxonomy (braveImageSearch env http query numResults) := by
  rcases braveImageSearch_cases env http query numResults hk with
    ⟨ht, t, v, hr⟩ | ⟨ht, mm, hr⟩ | ⟨ht, hr⟩ | ⟨ht, es, hr⟩
  · exact ⟨fun _ => ok_err_split _ "Error: Search query must be a string, received "
      (t ++ (": " ++ v)) " Search query must be a string, received " hr (by decide),
      fun htr => absurd (ht.symm.trans htr) (by decide)⟩
  · refine ⟨fun hs => ?_, fun _ => Or.inr ⟨mm, hr⟩⟩
    rcases hs with h' | h' | h' | h' | h' <;> exact absurd (ht.symm.trans h') (by decide)
  · exact ⟨fun _ => ok_err_of_drop _ _ hr (by decide),
      fun htr => absurd (ht.symm.trans htr) (by decide)⟩
  · refine ⟨fun hs => ?_, fun htr => absurd (ht.symm.trans htr) (by decide)⟩
    rcases hs with h' | h' | h' | h' | h' <;> exact absurd (ht.symm.trans h') (by decide)

/-- The taxonomy holds for every llmWebSearch outcome. -/
theorem llmWebSearch_taxonomy (events : List StreamEvent) (thrown : Option String)
    (query : JSVal) (model agentName instructions : String) :
    errorPrefixTaxonomy (llmWebSearch events thrown query model agentName instructions) := by
  rcases llmWebSearch_cases events thrown query model agentName instructions with
    ⟨ht, e, hr⟩ | ⟨ht, mm, _, hr⟩ | ⟨ht, s, hr⟩
  · exact ⟨fun _ => ok_err_split _ "Error: " e " " hr (by decide),
      fun htr => absurd (ht.symm.trans htr) (by decide)⟩
  · refine ⟨fun hs => ?_, fun htr => absurd (ht.symm.trans htr) (by decide)⟩
    rcases hs with h' | h' | h' | h' | h' <;> exact absurd (ht.symm.trans h') (by decide)
  · refine ⟨fun hs => ?_, fun htr => absurd (ht.symm.trans htr) (by decide)⟩
    rcases hs with h' | h' | h' | h' | h' <;> exact absurd (ht.symm.trans h') (by decide)

/-- The taxonomy holds for a literal missing-key outcome. -/
theorem missingKey_taxonomy (s : String) (h : s = "Error:" ++ s.drop 6) :
    errorPrefixTaxonomy ⟨.ok s, .missingKey, 0, 0⟩ :=
  ⟨fun _ => ⟨s.drop 6, by rw [← h]⟩, fun htr => OutClass.noConfusion htr⟩

/-- The taxonomy holds for every outcome of the dispatcher switch. -/
theorem dispatchEngine_taxonomy (w : World) (engine query numResults : JSVal) :
    errorPrefixTaxonomy (dispatchEngine w engine query numResults) := by
  unfold dispatchEngine
  by_cases h1 : engine = JSVal.str "brave"
  · rw [if_pos h1]
    by_cases hk : envTruthy w.env.BRAVE_API_KEY
    · rw [if_neg (by simp [hk])]
      exact braveSearch_taxonomy w.env w.braveHttp query numResults (by simp [hk])
    · rw [if_pos (by simp [hk])]
      exact missingKey_taxonomy _ (by decide)
  · rw [if_neg h1]
    by_cases h2 : engine = JSVal.str "brave-images"
    · rw [if_pos h2]
      by_cases hk : envTruthy w.env.BRAVE_API_KEY
      · rw [if_neg (by simp [hk])]
        exact braveImageSearch_taxonomy w.env w.braveImageHttp query numResults (by simp [hk])
      · rw [if_pos (by simp [hk])]
        exact missingKey_taxonomy _ (by decide)
    · rw [if_neg h2]
      by_cases h3 : engine = JSVal.str "anthropic"
      · rw [if_pos h3]
        by_cases hk : envTruthy w.env.ANTHROPIC_API_KEY
        · rw [if_neg (by simp [hk])]
          exact llmWebSearch_taxonomy _ _ _ _ _ _
        · rw [if_pos (by simp [hk])]
          exact missingKey_taxonomy _ (by decide)
      · rw [if_neg h3]
        by_cases h4 : engine = JSVal.str "openai"
        · rw [if_pos h4]
          by_cases hk : envTruthy w.env.OPENAI_API_KEY
          · rw [if_neg (by simp [hk])]
            exact llmWebSearch_taxonomy _ _ _ _ _ _
          · rw [if_pos (by simp [hk])]
            exact missingKey_taxonomy _ (by decide)
        · rw [if_neg h4]
          by_cases h5 : engine = JSVal.str "google"
          · rw [if_pos h5]
            by_cases hk : envTruthy w.env.GOOGLE_API_KEY
            · rw [if_neg (by simp [hk])]
              exact llmWebSearch_taxonomy _ _ _ _ _ _
            · rw [if_pos (by simp [hk])]
              exact missingKey_taxonomy _ (by decide)
          · rw [if_neg h5]
            by_cases h6 : engine = JSVal.str "sonar" ∨ engine = JSVal.str "sonar-pro" ∨
                engine = JSVal.str "sonar-deep-research"
            · rw [if_pos h6]
              by_cases hk : envTruthy w.env.OPENROUTER_API_KEY
              · rw [if_neg (by simp [hk])]
                exact llmWebSearch_taxonomy _ _ _ _ _ _
              · rw [if_pos (by simp [hk])]
                exact missingKey_taxonomy _ (by decide)
            · rw [if_neg h6]
              by_cases h7 : engine = JSVal.str "xai"
              · rw [if_pos h7]
                by_cases hk : envTruthy w.env.XAI_API_KEY
                · rw [if_neg (by simp [hk])]
                  exact llmWebSearch_taxonomy _ _ _ _ _ _
                · rw [if_pos (by simp [hk])]
                  exact missingKey_taxonomy _ (by decide)
              · rw [if_neg h7]
                exact ⟨fun _ => ok_err_split _ "Error: Invalid or unsupported search engine "
                    (toStringVal engine) " Invalid or unsupported search engine " rfl (by decide),
                  fun htr => OutClass.noConfusion htr⟩

/-- C1 counterexample: a transport failure of the brave engine is a
dispatch failure whose returned string is not prefixed with Error:, so
the prefix check alone does not detect it. -/
theorem C1_counterexample :
    (web_search ⟨⟨some "k", none, none, none, none, none⟩, .throws "timeout",
        .returns none, [], none⟩
        (.str "brave") (.str "q") (.num 5) .undefined)
      = ⟨.ok "Error performing Brave search: timeout", .transportFail, 1, 0⟩ ∧
    ¬ ∃ m, ("Error performing Brave search: timeout" : String) = "Error:" ++ m :=
  ⟨by decide, not_exists_of_take_mismatch _ _ (by decide)⟩

/-- C1 amended: bad-input, unknown-engine, missing-configuration,
malformed-response and agent-error failures all settle with strings
prefixed exactly Error: while direct-HTTP transport failures settle with
strings prefixed Error performing Brave search: or Error performing
Brave image search: which lack the Error: prefix. -/
theorem C1_amended (w : World) (a b c d : JSVal) :
    ((web_search w a b c d).tag = OutClass.badInput ∨
     (web_search w a b c d).tag = OutClass.unknownEngine ∨
     (web_search w a b c d).tag = OutClass.missingKey ∨
     (web_search w a b c d).tag = OutClass.malformedResponse ∨
     (web_search w a b c d).tag = OutClass.agentError →
      ∃ m, (web_search w a b c d).result = Except.ok ("Error:" ++ m)) ∧
    ((web_search w a b c d).tag = OutClass.transportFail →
      (∃ m, (web_search w a b c d).result
        = Except.ok ("Error performing Brave search: " ++ m)) ∨
      (∃ m, (web_search w a b c d).result
        = Except.ok ("Error performing Brave image search: " ++ m))) := by
  have h := dispatchEngine_taxonomy w (resolveArgs a b c d).engine
    (resolveArgs a b c d).query (resolveArgs a b c d).numResults
  unfold web_search
  exact h

/-- C1 amended witness: a missing-key failure carries the Error: prefix,
and a concrete transport failure carries the Error performing prefix. -/
theorem C1_amended_witness :
    (∃ m, (web_search ⟨⟨none, none, none, none, none, none⟩, .returns none, .returns none,
        [], none⟩ (.str "brave") (.str "q") (.num 5) .undefined).result
      = Except.ok ("Error:" ++ m)) ∧
    ((∃ m, (web_search ⟨⟨some "k", none, none, none, none, none⟩, .throws "timeout",
        .returns none, [], none⟩ (.str "brave") (.str "q") (.num 5) .undefined).result
      = Except.ok ("Error performing Brave search: " ++ m)) ∨
     (∃ m, (web_search ⟨⟨some "k", none, none, none, none, none⟩, .throws "timeout",
        .returns none, [], none⟩ (.str "brave") (.str "q") (.num 5) .undefined).result
      = Except.ok ("Error performing Brave image search: " ++ m))) :=
  ⟨(C1_amended ⟨⟨none, none, none, none, none, none⟩, .returns none, .returns none, [], none⟩
      (.str "brave") (.str "q") (.num 5) .undefined).1 (by decide),
   (C1_amended ⟨⟨some "k", none, none, none, none, none⟩, .throws "timeout",
      .returns none, [], none⟩
      (.str "brave") (.str "q") (.num 5) .undefined).2 (by decide)⟩

/-- The brave branch of the switch always settles with an ok string. -/
theorem dispatchEngine_brave_ok (w : World) (q numResults : JSVal) :
    ∃ s, (dispatchEngine w (.str "brave") q numResults).result = Except.ok s := by
  unfold dispatchEngine
  rw [if_pos rfl]
  by_cases hk : envTruthy w.env.BRAVE_API_KEY
  · rw [if_neg (by simp [hk])]
    exact braveSearch_ok w.env w.braveHttp q numResults
  · rw [if_pos (by simp [hk])]
    exact ⟨_, rfl⟩

/-- The brave-images branch of the switch always settles with an ok
string. -/
theorem dispatchEngine_braveImages_ok (w : World) (q numResults : JSVal) :
    ∃ s, (dispatchEngine w (.str "brave-images") q numResults).result = Except.ok s := by
  unfold dispatchEngine
  rw [if_neg (by decide), if_pos rfl]
  by_cases hk : envTruthy w.env.BRAVE_API_KEY
  · rw [if_neg (by simp [hk])]
    exact braveImageSearch_ok w.env w.braveImageHttp q numResults
  · rw [if_pos (by simp [hk])]
    exact ⟨_, rfl⟩

/-- Every LLM-routed branch of the switch settles with an ok string
whenever the agent stream iteration raises no exception. -/
theorem dispatchEngine_llm_ok (w : World) (e : String) (he : e ∈ llmEngineIds)
    (q numResults : JSVal) (hth : w.agentThrow = none) :
    ∃ s, (dispatchEngine w (.str e) q numResults).result = Except.ok s := by
  simp only [llmEngineIds, List.mem_cons, List.not_mem_nil, or_false] at he
  rcases he with rfl | rfl | rfl | rfl | rfl | rfl | rfl <;> unfold dispatchEngine
  · rw [if_neg (by decide), if_neg (by decide), if_pos rfl]
    by_cases hk : envTruthy w.env.ANTHROPIC_API_KEY
    · rw [if_neg (by simp [hk]), hth]
      exact llmWebSearch_ok_of_nothrow _ _ _ _ _
    · rw [if_pos (by simp [hk])]
      exact ⟨_, rfl⟩
  · rw [if_neg (by decide), if_neg (by decide), if_neg (by decide), if_pos rfl]
    by_cases hk : envTruthy w.env.OPENAI_API_KEY
    · rw [if_neg (by simp [hk]), hth]
      exact llmWebSearch_ok_of_nothrow _ _ _ _ _
    · rw [if_pos (by simp [hk])]
      exact ⟨_, rfl⟩
  · rw [if_neg (by decide), if_neg (by decide), if_neg (by decide), if_neg (by decide),
      if_pos rfl]
    by_cases hk : envTruthy w.env.GOOGLE_API_KEY
    · rw [if_neg (by simp [hk]), hth]
      exact llmWebSearch_ok_of_nothrow _ _ _ _ _
    · rw [if_pos (by simp [hk])]
      exact ⟨_, rfl⟩
  · rw [if_neg (by decide), if_neg (by decide), if_neg (by decide), if_neg (by decide),
      if_neg (by decide), if_pos (by decide)]
    by_cases hk : envTruthy w.env.OPENROUTER_API_KEY
    · rw [if_neg (by simp [hk]), hth]
      exact llmWebSearch_ok_of_nothrow _ _ _ _ _
    · rw [if_pos (by simp [hk])]
      exact ⟨_, rfl⟩
  · rw [if_neg (by decide), if_neg (by decide), if_neg (by decide), if_neg (by decide),
      if_neg (by decide), if_pos (by decide)]
    by_cases hk : envTruthy w.env.OPENROUTER_API_KEY
    · rw [if_neg (by simp [hk]), hth]
      exact llmWebSearch_ok_of_nothrow _ _ _ _ _
    · rw [if_pos (by simp [hk])]
      exact ⟨_, rfl⟩
  · rw [if_neg (by decide), if_neg (by decide), if_neg (by decide), if_neg (by decide),
      if_neg (by decide), if_pos (by decide)]
    by_cases hk : envTruthy w.env.OPENROUTER_API_KEY
    · rw [if_neg (by simp [hk]), hth]
      exact llmWebSearch_ok_of_nothrow _ _ _ _ _
    · rw [if_pos (by simp [hk])]
      exact ⟨_, rfl⟩
  · rw [if_neg (by decide), if_neg (by decide), if_neg (by decide), if_neg (by decide),
      if_neg (by decide), if_neg (by decide), if_pos rfl]
    by_cases hk : envTruthy w.env.XAI_API_KEY
    · rw [if_neg (by simp [hk]), hth]
      exact llmWebSearch_ok_of_nothrow _ _ _ _ _
    · rw [if_pos (by simp [hk])]
      exact ⟨_, rfl⟩

/-- C8 counterexample: with a configured anthropic key, an exception
raised by the external agent stream propagates out of web_search to its
caller instead of being converted into an Error: prefixed string. -/
theorem C8_counterexample :
    (web_search ⟨⟨none, some "k", none, none, none, none⟩, .returns none, .returns none,
        [], some "boom"⟩
        (.str "anthropic") (.str "q") (.num 5) .undefined)
      = ⟨.error "boom", .thrown, 0, 1⟩ := by
  decide

/-- C8 amended: the direct-HTTP engines never propagate an exception to
the caller, for every transport behavior; the LLM-routed engines never
propagate one provided the agent stream iteration itself raises none,
with a reported error event converted to an Error: prefixed string. -/
theorem C8_amended (w : World) (q : JSVal) (n : Int) :
    (∃ s, (web_search w (.str "brave") q (.num n) .undefined).result = Except.ok s) ∧
    (∃ s, (web_search w (.str "brave-images") q (.num n) .undefined).result = Except.ok s) ∧
    (∀ e ∈ llmEngineIds, w.agentThrow = none →
      ∃ s, (web_search w (.str e) q (.num n) .undefined).result = Except.ok s) := by
  have hb := dispatchEngine_brave_ok w
  have hbi := dispatchEngine_braveImages_ok w
  have hllm := dispatchEngine_llm_ok w
  unfold web_search
  refine ⟨?_, ?_, fun e he hth => ?_⟩
  · have : (resolveArgs (.str "brave") q (.num n) .undefined).engine = .str "brave" := by
      rcases q with s | m | b | _ | _ <;> simp [resolveArgs, typeofVal]
    rw [this]
    exact hb _ _
  · have : (resolveArgs (.str "brave-images") q (.num n) .undefined).engine
        = .str "brave-images" := by
      rcases q with s | m | b | _ | _ <;> simp [resolveArgs, typeofVal]
    rw [this]
    exact hbi _ _
  · have : (resolveArgs (.str e) q (.num n) .undefined).engine = .str e := by
      rcases q with s | m | b | _ | _ <;> simp [resolveArgs, typeofVal]
    rw [this]
    exact hllm e he _ _ hth

/-- C8 amended witness: a concrete anthropic call with a non-throwing
stream settles with an ok string. -/
theorem C8_amended_witness :
    "anthropic" ∈ llmEngineIds ∧
    (⟨⟨none, some "k", none, none, none, none⟩, .returns none, .returns none,
        [.message_delta "answer"], none⟩ : World).agentThrow = none ∧
    ∃ s, (web_search ⟨⟨none, some "k", none, none, none, none⟩, .returns none, .returns none,
        [.message_delta "answer"], none⟩
        (.str "anthropic") (.str "q") (.num 5) .undefined).result = Except.ok s :=
  ⟨by decide, rfl,
   (C8_amended ⟨⟨none, some "k", none, none, none, none⟩, .returns none, .returns none,
      [.message_delta "answer"], none⟩ (.str "q") 5).2.2 "anthropic" (by decide) rfl⟩

end JES
